import Mathlib

/-!
Verification development for the ai-cli repository: a shallow embedding of
the streaming-completion layer (per-protocol frame decoders and provider
adapters), the mock provider, the headless aggregator (Brain), the
destructive-command classifier, and the TUI key-event state machine,
together with theorems settling the specification claims about them.

Machine integers: the only machine arithmetic reached by the claims is the
u16 scroll position, modelled as Nat with explicit saturation (subtraction on
Nat is saturating at 0, addition is capped at 65535).

External library modelling: the Rust code calls serde_json for JSON parsing.
That library is embedded below as an executable JSON parser plus per-struct
extraction functions mirroring the derived Deserialize instances (unknown
object fields ignored, Option fields defaulting to none when missing,
serde(default) honoured). The model covers the JSON fragment actually
exercised here; it omits the \u escape form, the leading-zero restriction on
numbers and numeric values themselves, none of which any deserialized struct
of this repository inspects.
-/

namespace AiCli

/-- JSON value tree, the target of the serde_json model. Numeric payloads are
not stored because no deserialized struct in this repository reads a numeric
field. -/
inductive Json : Type where
  | null : Json
  | bool : Bool → Json
  | num : Json
  | str : String → Json
  | arr : List Json → Json
  | obj : List (String × Json) → Json

/-- Whitespace accepted between JSON tokens by serde_json. -/
def isWsJ (c : Char) : Bool := c = ' ' || c = '\t' || c = '\n' || c = '\r'

def skipWs (cs : List Char) : List Char := cs.dropWhile isWsJ

/-- Parse the body of a JSON string literal after the opening quote, returning
the decoded characters and the rest of the input after the closing quote. -/
def parseStringBody : List Char → Option (List Char × List Char)
  | [] => none
  | c :: rest =>
    if c = '"' then some ([], rest)
    else if c = '\\' then
      match rest with
      | [] => none
      | e :: rest2 =>
        let ec? : Option Char :=
          if e = '"' then some '"'
          else if e = '\\' then some '\\'
          else if e = '/' then some '/'
          else if e = 'n' then some '\n'
          else if e = 't' then some '\t'
          else if e = 'r' then some '\r'
          else if e = 'b' then some (Char.ofNat 8)
          else if e = 'f' then some (Char.ofNat 12)
          else none
        match ec? with
        | none => none
        | some ec =>
          match parseStringBody rest2 with
          | some (s, r) => some (ec :: s, r)
          | none => none
    else
      match parseStringBody rest with
      | some (s, r) => some (c :: s, r)
      | none => none

def takeDigits (cs : List Char) : List Char × List Char :=
  (cs.takeWhile Char.isDigit, cs.dropWhile Char.isDigit)

def parseExpPart (cs : List Char) : Option (List Char) :=
  let cs1 := match cs with
    | '+' :: r => r
    | '-' :: r => r
    | r => r
  let (ds, r) := takeDigits cs1
  if ds.isEmpty then none else some r

def parseNumAfterSign (cs : List Char) : Option (List Char) :=
  let (ds, r) := takeDigits cs
  if ds.isEmpty then none
  else
    let r2? : Option (List Char) :=
      match r with
      | '.' :: r1 =>
        let (fs, rf) := takeDigits r1
        if fs.isEmpty then none else some rf
      | _ => some r
    match r2? with
    | none => none
    | some r3 =>
      match r3 with
      | 'e' :: r4 => parseExpPart r4
      | 'E' :: r4 => parseExpPart r4
      | _ => some r3

mutual

/-- Fuel-indexed JSON value parser (the fuel only bounds nesting depth; it is
instantiated generously in jsonFromStr). -/
def parseVal : Nat → List Char → Option (Json × List Char)
  | 0, _ => none
  | Nat.succ fuel, cs =>
    match skipWs cs with
    | [] => none
    | c :: rest =>
      if c = 'n' then
        match rest with
        | 'u' :: 'l' :: 'l' :: r => some (Json.null, r)
        | _ => none
      else if c = 't' then
        match rest with
        | 'r' :: 'u' :: 'e' :: r => some (Json.bool true, r)
        | _ => none
      else if c = 'f' then
        match rest with
        | 'a' :: 'l' :: 's' :: 'e' :: r => some (Json.bool false, r)
        | _ => none
      else if c = '"' then
        match parseStringBody rest with
        | some (s, r) => some (Json.str (String.mk s), r)
        | none => none
      else if c = '[' then
        match skipWs rest with
        | ']' :: r => some (Json.arr [], r)
        | _ =>
          match parseItems fuel rest with
          | some (xs, r) => some (Json.arr xs, r)
          | none => none
      else if c = '\x7b' then
        match skipWs rest with
        | '\x7d' :: r => some (Json.obj [], r)
        | _ =>
          match parseMembers fuel rest with
          | some (kvs, r) => some (Json.obj kvs, r)
          | none => none
      else if c = '-' then
        match parseNumAfterSign rest with
        | some r => some (Json.num, r)
        | none => none
      else if c.isDigit then
        match parseNumAfterSign (c :: rest) with
        | some r => some (Json.num, r)
        | none => none
      else none

def parseItems : Nat → List Char → Option (List Json × List Char)
  | 0, _ => none
  | Nat.succ fuel, cs =>
    match parseVal fuel cs with
    | none => none
    | some (v, r) =>
      match skipWs r with
      | ',' :: r2 =>
        match parseItems fuel r2 with
        | some (vs, r3) => some (v :: vs, r3)
        | none => none
      | ']' :: r2 => some ([v], r2)
      | _ => none

def parseMembers : Nat → List Char → Option (List (String × Json) × List Char)
  | 0, _ => none
  | Nat.succ fuel, cs =>
    match skipWs cs with
    | '"' :: r =>
      match parseStringBody r with
      | none => none
      | some (k, r1) =>
        match skipWs r1 with
        | ':' :: r2 =>
          match parseVal fuel r2 with
          | none => none
          | some (v, r3) =>
            match skipWs r3 with
            | ',' :: r4 =>
              match parseMembers fuel r4 with
              | some (kvs, r5) => some ((String.mk k, v) :: kvs, r5)
              | none => none
            | '\x7d' :: r4 => some ([(String.mk k, v)], r4)
            | _ => none
        | _ => none
    | _ => none

end

/-- Model of serde_json::from_str at the JSON-value level: the whole input,
up to surrounding whitespace, must be one JSON value. -/
def jsonFromStr (s : String) : Option Json :=
  match parseVal (2 * s.length + 2) s.toList with
  | some (j, r) => if (skipWs r).isEmpty then some j else none
  | none => none

/-- First binding of a key in a JSON object, as serde field lookup. -/
def getField (kvs : List (String × Json)) (k : String) : Option Json :=
  match kvs.find? (fun kv => kv.fst == k) with
  | some kv => some kv.snd
  | none => none

/-- serde semantics of an Option of String field: missing or null gives none,
a string gives some, anything else is a deserialization error. -/
def decodeOptString (kvs : List (String × Json)) (k : String) : Option (Option String) :=
  match getField kvs k with
  | none => some none
  | some Json.null => some none
  | some (Json.str s) => some (some s)
  | some _ => none

/-- Mirror of struct AnthropicDelta in src/ai/anthropic.rs. -/
structure AnthropicDelta : Type where
  delta_type : String
  text : Option String
deriving DecidableEq, Repr

/-- Mirror of struct AnthropicStreamEvent in src/ai/anthropic.rs. -/
structure AnthropicStreamEvent : Type where
  event_type : String
  delta : Option AnthropicDelta
deriving DecidableEq, Repr

def decodeAnthropicDelta : Json → Option AnthropicDelta
  | Json.obj kvs =>
    match getField kvs "type" with
    | some (Json.str t) =>
      match decodeOptString kvs "text" with
      | some txt => some ⟨t, txt⟩
      | none => none
    | _ => none
  | _ => none

def decodeAnthropicEvent : Json → Option AnthropicStreamEvent
  | Json.obj kvs =>
    match getField kvs "type" with
    | some (Json.str t) =>
      match getField kvs "delta" with
      | none => some ⟨t, none⟩
      | some Json.null => some ⟨t, none⟩
      | some j =>
        match decodeAnthropicDelta j with
        | some d => some ⟨t, some d⟩
        | none => none
    | _ => none
  | _ => none

/-- serde_json::from_str for AnthropicStreamEvent. -/
def parseAnthropicEvent (s : String) : Option AnthropicStreamEvent :=
  match jsonFromStr s with
  | some j => decodeAnthropicEvent j
  | none => none

/-- Mirror of struct OpenAIDelta in src/ai/openai.rs. -/
structure OpenAIDelta : Type where
  content : Option String
deriving DecidableEq, Repr

/-- Mirror of struct OpenAIChoice in src/ai/openai.rs. -/
structure OpenAIChoice : Type where
  delta : OpenAIDelta
  finish_reason : Option String
deriving DecidableEq, Repr

/-- Mirror of struct OpenAIStreamChunk in src/ai/openai.rs. -/
structure OpenAIStreamChunk : Type where
  choices : List OpenAIChoice
deriving DecidableEq, Repr

def decodeOpenAIDelta : Json → Option OpenAIDelta
  | Json.obj kvs =>
    match decodeOptString kvs "content" with
    | some c => some ⟨c⟩
    | none => none
  | _ => none

def decodeOpenAIChoice : Json → Option OpenAIChoice
  | Json.obj kvs =>
    match getField kvs "delta" with
    | some dj =>
      match decodeOpenAIDelta dj with
      | some d =>
        match decodeOptString kvs "finish_reason" with
        | some fr => some ⟨d, fr⟩
        | none => none
      | none => none
    | none => none
  | _ => none

def decodeOpenAIChunk : Json → Option OpenAIStreamChunk
  | Json.obj kvs =>
    match getField kvs "choices" with
    | some (Json.arr xs) =>
      match xs.mapM decodeOpenAIChoice with
      | some cs => some ⟨cs⟩
      | none => none
    | _ => none
  | _ => none

/-- serde_json::from_str for OpenAIStreamChunk. -/
def parseOpenAIChunk (s : String) : Option OpenAIStreamChunk :=
  match jsonFromStr s with
  | some j => decodeOpenAIChunk j
  | none => none

/-- Mirror of struct OllamaMessageContent in src/ai/ollama.rs. -/
structure OllamaMessageContent : Type where
  content : String
deriving DecidableEq, Repr

/-- Mirror of struct OllamaStreamChunk in src/ai/ollama.rs. -/
structure OllamaStreamChunk : Type where
  message : Option OllamaMessageContent
  done : Bool
deriving DecidableEq, Repr

def decodeOllamaMessage : Json → Option OllamaMessageContent
  | Json.obj kvs =>
    match getField kvs "content" with
    | some (Json.str s) => some ⟨s⟩
    | _ => none
  | _ => none

def decodeOllamaChunk : Json → Option OllamaStreamChunk
  | Json.obj kvs =>
    let msg? : Option (Option OllamaMessageContent) :=
      match getField kvs "message" with
      | none => some none
      | some Json.null => some none
      | some j =>
        match decodeOllamaMessage j with
        | some m => some (some m)
        | none => none
    match msg? with
    | none => none
    | some m =>
      match getField kvs "done" with
      | some (Json.bool b) => some ⟨m, b⟩
      | _ => none
  | _ => none

/-- serde_json::from_str for OllamaStreamChunk. -/
def parseOllamaChunk (s : String) : Option OllamaStreamChunk :=
  match jsonFromStr s with
  | some j => decodeOllamaChunk j
  | none => none

/-- Mirror of struct GeminiResponsePart in src/ai/gemini.rs. -/
structure GeminiResponsePart : Type where
  text : String
deriving DecidableEq, Repr

/-- Mirror of struct GeminiResponseContent in src/ai/gemini.rs. -/
structure GeminiResponseContent : Type where
  parts : List GeminiResponsePart
deriving DecidableEq, Repr

/-- Mirror of struct GeminiCandidate in src/ai/gemini.rs. -/
structure GeminiCandidate : Type where
  content : GeminiResponseContent
deriving DecidableEq, Repr

/-- Mirror of struct GeminiStreamResponse in src/ai/gemini.rs; the candidates
field carries serde(default). -/
structure GeminiStreamResponse : Type where
  candidates : List GeminiCandidate
deriving DecidableEq, Repr

def decodeGeminiPart : Json → Option GeminiResponsePart
  | Json.obj kvs =>
    match getField kvs "text" with
    | some (Json.str s) => some ⟨s⟩
    | _ => none
  | _ => none

def decodeGeminiContent : Json → Option GeminiResponseContent
  | Json.obj kvs =>
    match getField kvs "parts" with
    | some (Json.arr xs) =>
      match xs.mapM decodeGeminiPart with
      | some ps => some ⟨ps⟩
      | none => none
    | _ => none
  | _ => none

def decodeGeminiCandidate : Json → Option GeminiCandidate
  | Json.obj kvs =>
    match getField kvs "content" with
    | some j =>
      match decodeGeminiContent j with
      | some c => some ⟨c⟩
      | none => none
    | none => none
  | _ => none

def decodeGeminiResponse : Json → Option GeminiStreamResponse
  | Json.obj kvs =>
    match getField kvs "candidates" with
    | none => some ⟨[]⟩
    | some (Json.arr xs) =>
      match xs.mapM decodeGeminiCandidate with
      | some cs => some ⟨cs⟩
      | none => none
    | some _ => none
  | _ => none

/-- serde_json::from_str for GeminiStreamResponse. -/
def parseGeminiResponse (s : String) : Option GeminiStreamResponse :=
  match jsonFromStr s with
  | some j => decodeGeminiResponse j
  | none => none

/-! Rust text primitives used by the decoders. -/

/-- Split a character list at every newline, like str::split of a newline. -/
def splitNl : List Char → List (List Char)
  | [] => [[]]
  | c :: rest =>
    if c = '\n' then [] :: splitNl rest
    else
      match splitNl rest with
      | [] => [[c]]
      | l :: ls => (c :: l) :: ls

/-- Remove one trailing carriage return, the second half of str::lines. -/
def stripCRCh (l : List Char) : List Char :=
  if l.getLast? = some '\r' then l.dropLast else l

def rustLinesAux : List (List Char) → List String
  | [] => []
  | [last] => if last.isEmpty then [] else [String.mk last]
  | p :: rest => String.mk (stripCRCh p) :: rustLinesAux rest

/-- Model of Rust str::lines: split at newlines, strip a carriage return at
the end of each terminated line, and drop the final empty piece when the
text ends with a newline. -/
def rustLines (s : String) : List String := rustLinesAux (splitNl s.toList)

/-- ASCII fragment of char::is_whitespace, as used by str::trim. -/
def isRustWs (c : Char) : Bool :=
  c = ' ' || c = '\t' || c = '\n' || c = '\r' || c = '\x0b' || c = '\x0c'

/-- Model of Rust str::trim restricted to ASCII whitespace. -/
def rustTrim (s : String) : String :=
  String.mk (((s.toList.dropWhile isRustWs).reverse.dropWhile isRustWs).reverse)

/-- Model of line.strip_prefix of the SSE marker "data: ". -/
def dropDataTag (l : String) : Option String :=
  match l.toList with
  | 'd' :: 'a' :: 't' :: 'a' :: ':' :: ' ' :: rest => some (String.mk rest)
  | _ => none

/-! The four per-chunk frame decoders, each the closure mapped over
bytes_stream inside the corresponding stream_impl. Every decoder receives one
network chunk and yields one Result of String: there is no session buffer and
no state carried between chunks in the source. -/

/-- Per-line token extraction of AnthropicClient::stream_impl
(src/ai/anthropic.rs, lines 158-180): only content_block_delta events with
non-empty delta text contribute; every line whose payload fails to parse is
skipped, the Err arm of the serde match being a bare continue. -/
def anthropicLineTokens (line : String) : List String :=
  match dropDataTag line with
  | some jsonStr =>
    match parseAnthropicEvent jsonStr with
    | some ev =>
      if ev.event_type = "content_block_delta" then
        match ev.delta with
        | some d =>
          match d.text with
          | some t => if t.isEmpty then [] else [t]
          | none => []
        | none => []
      else []
    | none => []
  | none => []

/-- One chunk through the Anthropic SSE decoder: join of all tokens of all
lines of this chunk, never an error (src/ai/anthropic.rs, lines 150-184). -/
def anthropicDecodeChunk (chunk : String) : Except String String :=
  Except.ok (String.join ((rustLines chunk).map anthropicLineTokens).flatten)

/-- Per-line token extraction of OpenAIClient::stream_impl
(src/ai/openai.rs, lines 167-190): the literal DONE sentinel is skipped; any
other data payload that fails to parse aborts with an error. -/
def openaiLineTokens (line : String) : Except String (List String) :=
  match dropDataTag line with
  | some jsonStr =>
    if rustTrim jsonStr = "[DONE]" then Except.ok []
    else
      match parseOpenAIChunk jsonStr with
      | some chunk =>
        Except.ok (chunk.choices.filterMap (fun ch =>
          match ch.delta.content with
          | some c => if c.isEmpty then none else some c
          | none => none))
      | none => Except.error "Failed to parse SSE"
  | none => Except.ok []

/-- One chunk through the OpenAI SSE decoder (src/ai/openai.rs,
lines 159-194). -/
def openaiDecodeChunk (chunk : String) : Except String String :=
  match (rustLines chunk).foldlM
      (fun acc line => (openaiLineTokens line).map (acc ++ ·)) ([] : List String) with
  | Except.ok toks => Except.ok (String.join toks)
  | Except.error e => Except.error e

/-- Per-line token extraction of OllamaClient::stream_impl
(src/ai/ollama.rs, lines 136-153): blank lines are skipped; any line that
fails to parse aborts with an error. -/
def ollamaLineTokens (line : String) : Except String (List String) :=
  if (rustTrim line).isEmpty then Except.ok []
  else
    match parseOllamaChunk line with
    | some c =>
      Except.ok (match c.message with
        | some m => if m.content.isEmpty then [] else [m.content]
        | none => [])
    | none => Except.error "Failed to parse NDJSON"

/-- One chunk through the Ollama NDJSON decoder (src/ai/ollama.rs,
lines 128-157). -/
def ollamaDecodeChunk (chunk : String) : Except String String :=
  match (rustLines chunk).foldlM
      (fun acc line => (ollamaLineTokens line).map (acc ++ ·)) ([] : List String) with
  | Except.ok toks => Except.ok (String.join toks)
  | Except.error e => Except.error e

/-- Per-line token extraction of GeminiClient::stream_impl
(src/ai/gemini.rs, lines 162-182): blank and unparseable lines are skipped. -/
def geminiLineTokens (line : String) : List String :=
  if (rustTrim line).isEmpty then []
  else
    match parseGeminiResponse line with
    | some r =>
      (r.candidates.map (fun cd => cd.content.parts.filterMap (fun p =>
        if p.text.isEmpty then none else some p.text))).flatten
    | none => []

/-- One chunk through the Gemini NDJSON decoder (src/ai/gemini.rs,
lines 154-186). -/
def geminiDecodeChunk (chunk : String) : Except String String :=
  Except.ok (String.join ((rustLines chunk).map geminiLineTokens).flatten)

/-- Feeding a sequence of chunks to a per-chunk decoder: the emitted fragment
sequence is the per-chunk map, since the source decodes each chunk in
isolation. -/
def decodeChunks (dec : String → Except String String) (chunks : List String) :
    List (Except String String) :=
  chunks.map dec

/-! HTTP status handling of the three cloud adapters (claim C8). -/

/-- reqwest StatusCode::is_success: the 2xx range. -/
def status_is_success (status : Nat) : Bool := 200 ≤ status && status < 300

/-- Error text composed by AnthropicClient::stream_impl on non-success status
(src/ai/anthropic.rs, lines 138-146). -/
def anthropicErrorMsg (status : Nat) (body : String) : String :=
  "Anthropic API error (status " ++ toString status ++ "): " ++ body ++
    ". Check your AETHER_ANTHROPIC_API_KEY."

/-- Error text composed by OpenAIClient::stream_impl on non-success status
(src/ai/openai.rs, lines 147-155). -/
def openaiErrorMsg (status : Nat) (body : String) : String :=
  "OpenAI API error (status " ++ toString status ++ "): " ++ body ++
    ". Check your AETHER_OPENAI_API_KEY."

/-- Error text composed by GeminiClient::stream_impl on non-success status
(src/ai/gemini.rs, lines 142-150). -/
def geminiErrorMsg (status : Nat) (body : String) : String :=
  "Gemini API error (status " ++ toString status ++ "): " ++ body ++
    ". Check your AETHER_GEMINI_API_KEY."

/-- Response stage of AnthropicClient::stream_impl: on non-success status the
fully read body is folded into the error and no stream is produced; on
success the byte chunks are routed through the frame decoder. -/
def anthropicStreamResponse (status : Nat) (body : String) (chunks : List String) :
    Except String (List (Except String String)) :=
  if status_is_success status then Except.ok (decodeChunks anthropicDecodeChunk chunks)
  else Except.error (anthropicErrorMsg status body)

/-- Response stage of OpenAIClient::stream_impl. -/
def openaiStreamResponse (status : Nat) (body : String) (chunks : List String) :
    Except String (List (Except String String)) :=
  if status_is_success status then Except.ok (decodeChunks openaiDecodeChunk chunks)
  else Except.error (openaiErrorMsg status body)

/-- Response stage of GeminiClient::stream_impl. -/
def geminiStreamResponse (status : Nat) (body : String) (chunks : List String) :
    Except String (List (Except String String)) :=
  if status_is_success status then Except.ok (decodeChunks geminiDecodeChunk chunks)
  else Except.error (geminiErrorMsg status body)

/-! The mock provider (src/ai/mock.rs). -/

/-- Byte-wise prefix test on characters. -/
def listStartsWith : List Char → List Char → Bool
  | [], _ => true
  | _ :: _, [] => false
  | p :: ps, c :: cs => p = c && listStartsWith ps cs

/-- Model of Rust str::contains for a literal pattern. -/
def hasSubList (s pat : List Char) : Bool :=
  match s with
  | [] => pat.isEmpty
  | _ :: rest => listStartsWith pat s || hasSubList rest pat

def containsSub (s pat : String) : Bool := hasSubList s.toList pat.toList

/-- Model of str::to_lowercase, faithful on ASCII text. -/
def toLowerStr (s : String) : String := String.mk (s.toList.map Char.toLower)

/-- The predefined responses inserted by MockAIProvider::new
(src/ai/mock.rs, lines 17-49), in insertion order. The Rust HashMap iterates
in an unspecified order; every fact proved below is independent of the
iteration order (exact hits and the no-match default). -/
def mockResponses : List (String × String) := [
  ("list files", "ls -la"),
  ("find python files", "find . -name \x27*.py\x27"),
  ("undo last git commit", "git reset --soft HEAD~1"),
  ("undo last 3 git commits", "git reset --soft HEAD~3"),
  ("show git status", "git status"),
  ("find all python files modified yesterday and tar them",
    "find . -name \x27*.py\x27 -mtime -1 | xargs tar -cvf archive.tar"),
  ("delete all log files", "find . -name \x27*.log\x27 -delete")]

def mockDefault : String := "echo \x27Command not found in mock responses\x27"

/-- MockAIProvider::get_response (src/ai/mock.rs, lines 69-86): lowercase the
query, try an exact key hit, then a bidirectional substring match, then fall
back to the default response; the function is total and never fails. -/
def get_response (responses : List (String × String)) (default_response : String)
    (query : String) : String :=
  let query_lower := toLowerStr query
  match responses.find? (fun kv => kv.fst == query_lower) with
  | some kv => kv.snd
  | none =>
    match responses.find? (fun kv =>
        containsSub query_lower kv.fst || containsSub kv.fst query_lower) with
    | some kv => kv.snd
    | none => default_response

def mockGetResponse (query : String) : String :=
  get_response mockResponses mockDefault query

/-- slice::chunks of size 5 over characters, as used by
MockAIProvider::stream_completion. -/
def chunk5 : List Char → List (List Char)
  | [] => []
  | a :: [] => [[a]]
  | a :: b :: [] => [[a, b]]
  | a :: b :: c :: [] => [[a, b, c]]
  | a :: b :: c :: d :: [] => [[a, b, c, d]]
  | a :: b :: c :: d :: e :: rest => [a, b, c, d, e] :: chunk5 rest

/-- CompletionRequest (src/ai/client.rs, lines 11-17). -/
structure CompletionRequest : Type where
  system_prompt : String
  user_query : String
  context_files : List (String × String)
  history : List String
deriving DecidableEq, Repr

/-- MockAIProvider::stream_completion (src/ai/mock.rs, lines 97-113): the
canned response, chunked into pieces of five characters, each wrapped in Ok. -/
def mockStreamCompletion (req : CompletionRequest) : List (Except String String) :=
  (chunk5 (mockGetResponse req.user_query).toList).map (fun l => Except.ok (String.mk l))

/-! The headless aggregator (src/core/brain.rs). -/

/-- LENS_MODE_SYSTEM_PROMPT (src/ai/prompts.rs). -/
def LENS_MODE_SYSTEM_PROMPT : String :=
  "You are AETHER, an AI assistant for command-line interfaces. Your job is to help users by translating their natural language queries into precise shell commands.\n\nRules:\n1. Respond ONLY with the shell command, no explanations unless explicitly asked\n2. Use safe, standard Unix commands\n3. Prefer readable flags over cryptic shortcuts when reasonable\n4. If the query is ambiguous, make reasonable assumptions\n5. If multiple commands are needed, chain them with && or |\n\nContext:\n- Current shell: bash/zsh (assume POSIX compatibility)\n- Operating system: Linux/Unix\n"

/-- PIPE_MODE_SYSTEM_PROMPT (src/ai/prompts.rs). -/
def PIPE_MODE_SYSTEM_PROMPT : String :=
  "You are AETHER in pipe mode. You receive piped data and process it according to user instructions.\n\nRules:\n1. Analyze the input data format (JSON, CSV, logs, etc.)\n2. Follow the user\x27s instructions precisely\n3. Output clean, parseable results\n4. If asked for a chart, describe it in ASCII art\n5. Preserve data integrity\n"

/-- SENTINEL_MODE_SYSTEM_PROMPT (src/ai/prompts.rs). -/
def SENTINEL_MODE_SYSTEM_PROMPT : String :=
  "You are AETHER in Sentinel mode. You analyze error messages and suggest fixes.\n\nRules:\n1. Read the error message carefully\n2. Identify the root cause\n3. Suggest a specific, actionable fix\n4. If code changes are needed, provide a unified diff\n5. Explain the fix briefly\n"

/-- generate_system_prompt (src/ai/prompts.rs, lines 38-56). -/
def generate_system_prompt (mode : String) (context : List String) : String :=
  let base_prompt :=
    if mode = "lens" then LENS_MODE_SYSTEM_PROMPT
    else if mode = "pipe" then PIPE_MODE_SYSTEM_PROMPT
    else if mode = "sentinel" then SENTINEL_MODE_SYSTEM_PROMPT
    else LENS_MODE_SYSTEM_PROMPT
  if context.isEmpty then base_prompt
  else base_prompt ++ "\n\nRecent commands:\n" ++
    String.join (context.map (fun cmd => "  - " ++ cmd ++ "\n"))

/-- The pull-to-completion loop of Brain::process_query
(src/core/brain.rs, lines 52-58): concatenate fragments in order, stopping at
and propagating the first error. -/
def collectStream (pulls : List (Except String String)) : Except String String :=
  pulls.foldlM (fun acc chunk => chunk.map (acc ++ ·)) ""

/-- The CompletionRequest built by Brain::process_query
(src/core/brain.rs, lines 28-49). The shell-history read and the directory
scan are external collaborators; their outcomes enter as parameters, applied
only when include_context is set and only when they succeeded, as in the
source. -/
def builtRequest (shell_history : Except Unit (List String))
    (scanned_files : Except Unit (List (String × String)))
    (query : String) (include_context : Bool) : CompletionRequest :=
  let req0 : CompletionRequest := {
    system_prompt := generate_system_prompt "lens" [],
    user_query := query,
    context_files := [],
    history := [] }
  if include_context then
    let req1 := match shell_history with
      | Except.ok h => { req0 with history := h }
      | Except.error _ => req0
    match scanned_files with
    | Except.ok fs => { req1 with context_files := fs }
    | Except.error _ => req1
  else req0

/-- Brain::process_query (src/core/brain.rs, lines 23-60), parameterized by
the provider capability: build the request, obtain the fragment sequence,
pull it to completion concatenating in order, and trim the result; every
failure propagates as the error of the whole operation. -/
def processQuery
    (stream_completion : CompletionRequest → Except String (List (Except String String)))
    (shell_history : Except Unit (List String))
    (scanned_files : Except Unit (List (String × String)))
    (query : String) (include_context : Bool) : Except String String :=
  match stream_completion (builtRequest shell_history scanned_files query include_context) with
  | Except.error e => Except.error e
  | Except.ok pulls =>
    match collectStream pulls with
    | Except.ok response => Except.ok (rustTrim response)
    | Except.error e => Except.error e

/-! The destructive-command classifier (src/core/executor.rs). -/

/-- The fixed danger list of CommandExecutor::is_destructive
(src/core/executor.rs, lines 9-22). -/
def dangerous_patterns : List String := [
  "rm -rf",
  "rm -fr",
  "drop table",
  "drop database",
  "delete from",
  "truncate",
  "mkfs",
  "dd if=",
  "> /dev/",
  ":()\x7b :|:& \x7d;:",
  "chmod -R 777",
  "chown -R"]

/-- CommandExecutor::is_destructive (src/core/executor.rs, lines 8-28):
case-insensitive substring match against the fixed danger list. -/
def is_destructive (command : String) : Bool :=
  let command_lower := toLowerStr command
  dangerous_patterns.any (fun p => containsSub command_lower p)

/-! The TUI state machine (src/tui/state.rs and src/tui/mod.rs). -/

/-- AppMode (src/tui/state.rs, lines 3-13). -/
inductive AppMode : Type where
  | Input : AppMode
  | Thinking : AppMode
  | Review : AppMode
  | Diff : AppMode
deriving DecidableEq, Repr

/-- ChatMessage (src/tui/state.rs, lines 15-19). -/
structure ChatMessage : Type where
  role : String
  content : String
deriving DecidableEq, Repr

/-- AppState (src/tui/state.rs, lines 21-64). scroll_position is u16 in the
source, modelled as Nat with saturating operations; animation_frame is u8,
untouched by every operation modelled here. -/
structure AppState : Type where
  input_buffer : String
  mode : AppMode
  chat_history : List ChatMessage
  suggested_command : Option String
  command_explanation : Option String
  diff_content : Option String
  scroll_position : Nat
  show_explanation : Bool
  should_process_query : Bool
  should_execute : Bool
  should_apply_patch : Bool
  animation_frame : Nat
  initial_buffer : String
  cursor_pos : Nat
deriving DecidableEq, Repr

/-- The crossterm key codes distinguished by handle_key_event; every other
key falls into the catch-all arm, collapsed here into Other. -/
inductive KeyCode : Type where
  | CharKey : Char → KeyCode
  | Enter : KeyCode
  | Esc : KeyCode
  | Tab : KeyCode
  | Backspace : KeyCode
  | Up : KeyCode
  | Down : KeyCode
  | Other : KeyCode
deriving DecidableEq, Repr

/-- The only modifier bit handle_key_event reads is CONTROL. -/
structure KeyModifiers : Type where
  control : Bool
deriving DecidableEq, Repr

/-- Input-mode arm of handle_key_event (src/tui/mod.rs, lines 49-69). -/
def handle_key_input (state : AppState) (key_code : KeyCode) (modifiers : KeyModifiers) :
    AppState × Bool :=
  match key_code with
  | KeyCode.CharKey c =>
    if c = 'c' && modifiers.control then (state, true)
    else ({ state with input_buffer := state.input_buffer.push c }, false)
  | KeyCode.Esc => (state, true)
  | KeyCode.Enter =>
    if state.input_buffer.isEmpty then (state, false)
    else ({ state with mode := AppMode.Thinking, should_process_query := true }, false)
  | KeyCode.Backspace =>
    ({ state with input_buffer := String.mk state.input_buffer.toList.dropLast }, false)
  | _ => (state, false)

/-- Review-mode arm of handle_key_event (src/tui/mod.rs, lines 70-85). -/
def handle_key_review (state : AppState) (key_code : KeyCode) (modifiers : KeyModifiers) :
    AppState × Bool :=
  match key_code with
  | KeyCode.CharKey c =>
    if c = 'c' && modifiers.control then (state, true) else (state, false)
  | KeyCode.Esc => (state, true)
  | KeyCode.Enter => ({ state with should_execute := true }, true)
  | KeyCode.Tab => ({ state with show_explanation := !state.show_explanation }, false)
  | _ => (state, false)

/-- Thinking-mode arm of handle_key_event (src/tui/mod.rs, lines 86-91). -/
def handle_key_thinking (state : AppState) (key_code : KeyCode) (modifiers : KeyModifiers) :
    AppState × Bool :=
  if key_code = KeyCode.CharKey 'c' && modifiers.control then (state, true)
  else (state, false)

/-- Diff-mode arm of handle_key_event (src/tui/mod.rs, lines 92-110). -/
def handle_key_diff (state : AppState) (key_code : KeyCode) (modifiers : KeyModifiers) :
    AppState × Bool :=
  match key_code with
  | KeyCode.CharKey c =>
    if c = 'c' && modifiers.control then (state, true) else (state, false)
  | KeyCode.Esc => (state, true)
  | KeyCode.Enter => ({ state with should_apply_patch := true }, true)
  | KeyCode.Up => ({ state with scroll_position := state.scroll_position - 1 }, false)
  | KeyCode.Down =>
    ({ state with scroll_position := min (state.scroll_position + 1) 65535 }, false)
  | _ => (state, false)

/-- handle_key_event (src/tui/mod.rs, lines 43-113): dispatch on the current
mode, returning the updated state and the exit flag the source returns. -/
def handle_key_event (state : AppState) (key_code : KeyCode) (modifiers : KeyModifiers) :
    AppState × Bool :=
  match state.mode with
  | AppMode.Input => handle_key_input state key_code modifiers
  | AppMode.Review => handle_key_review state key_code modifiers
  | AppMode.Thinking => handle_key_thinking state key_code modifiers
  | AppMode.Diff => handle_key_diff state key_code modifiers

/-- AppState::reset_for_new_query (src/tui/state.rs, lines 93-103). -/
def reset_for_new_query (s : AppState) : AppState :=
  { s with
    mode := AppMode.Input,
    suggested_command := none,
    command_explanation := none,
    diff_content := none,
    scroll_position := 0,
    show_explanation := false,
    should_process_query := false,
    should_execute := false,
    should_apply_patch := false }

/-! Concrete texts used by the chunk-boundary and malformed-payload claims. -/

/-- One complete Anthropic SSE frame carrying the delta text hi. -/
def anthropicSseFrame : String :=
  "data: \x7b\"type\": \"content_block_delta\", \"delta\": \x7b\"type\": \"text_delta\", \"text\": \"hi\"\x7d\x7d\n"

/-- The same frame cut mid-line, first part. -/
def anthropicSseCutA : String := "data: \x7b\"type\": \"content_bl"

/-- The same frame cut mid-line, second part. -/
def anthropicSseCutB : String :=
  "ock_delta\", \"delta\": \x7b\"type\": \"text_delta\", \"text\": \"hi\"\x7d\x7d\n"

/-- One complete Ollama NDJSON frame carrying the content hi. -/
def ollamaNdjsonFrame : String :=
  "\x7b\"message\": \x7b\"content\": \"hi\"\x7d, \"done\": false\x7d\n"

/-- The same frame cut mid-JSON-token, first part. -/
def ollamaNdjsonCutA : String := "\x7b\"message\": \x7b\"conte"

/-- The same frame cut mid-JSON-token, second part. -/
def ollamaNdjsonCutB : String := "nt\": \"hi\"\x7d, \"done\": false\x7d\n"

/-- A complete data line that should carry a content delta but whose payload
is malformed: the text field holds a number, so deserialization of
AnthropicStreamEvent fails. -/
def anthropicBadContentLine : String :=
  "data: \x7b\"type\": \"content_block_delta\", \"delta\": \x7b\"type\": \"text_delta\", \"text\": 5\x7d\x7d"

/-- A complete data line for a non-content event with a malformed payload. -/
def openaiBadEventLine : String := "data: \x7bmalformed"

/-- The text of a successful fragment, the error case mapping to the empty
string; used to state stream-content equalities. -/
def fragString : Except String String → String
  | Except.ok s => s
  | Except.error _ => ""

/-- A concrete state in Review mode, used to instantiate key-handling
theorems. -/
def sampleReviewState : AppState := {
  input_buffer := "",
  mode := AppMode.Review,
  chat_history := [],
  suggested_command := some "ls -la",
  command_explanation := none,
  diff_content := none,
  scroll_position := 0,
  show_explanation := false,
  should_process_query := false,
  should_execute := false,
  should_apply_patch := false,
  animation_frame := 0,
  initial_buffer := "",
  cursor_pos := 0 }

/-- A concrete state in Diff mode with scroll offset zero. -/
def sampleDiffState : AppState := { sampleReviewState with mode := AppMode.Diff }

/-- A concrete state in Input mode with a non-empty query buffer. -/
def sampleInputState : AppState :=
  { sampleReviewState with mode := AppMode.Input, input_buffer := "list" }

/-- A concrete state in Input mode with an empty query buffer. -/
def sampleEmptyInputState : AppState := { sampleInputState with input_buffer := "" }

/-! Helper lemmas. -/

theorem toList_append (a b : String) : (a ++ b).toList = a.toList ++ b.toList := rfl

theorem listStartsWith_refl_append (pat b : List Char) :
    listStartsWith pat (pat ++ b) = true := by
  induction pat with
  | nil => rfl
  | cons p ps ih => simp [listStartsWith, ih]

theorem hasSubList_nil (s : List Char) : hasSubList s [] = true := by
  cases s with
  | nil => rfl
  | cons c rest => simp [hasSubList, listStartsWith]

theorem hasSubList_parts (a pat b : List Char) : hasSubList (a ++ (pat ++ b)) pat = true := by
  induction a with
  | nil =>
    simp only [List.nil_append]
    cases pat with
    | nil => exact hasSubList_nil _
    | cons p ps => simp [hasSubList, listStartsWith, listStartsWith_refl_append]
  | cons x xs ih =>
    simp only [List.cons_append, hasSubList, List.append_eq]
    rw [ih]
    simp

theorem hasSubList_self_append (pat b : List Char) : hasSubList (pat ++ b) pat = true := by
  have h := hasSubList_parts [] pat b
  simpa using h

theorem hasSubList_mono_left (s t pat : List Char) (h : hasSubList t pat = true) :
    hasSubList (s ++ t) pat = true := by
  induction s with
  | nil => simpa
  | cons x xs ih =>
    simp only [List.cons_append, hasSubList, List.append_eq]
    rw [ih]
    simp

theorem splitNl_no_nl (cs : List Char) (h : '\n' ∉ cs) : splitNl cs = [cs] := by
  induction cs with
  | nil => rfl
  | cons c rest ih =>
    have hc : ¬ c = '\n' := fun e => h (e ▸ List.mem_cons_self c rest)
    have hr : '\n' ∉ rest := fun hm => h (List.mem_cons_of_mem _ hm)
    simp only [splitNl, if_neg hc, ih hr]

theorem rustLinesAux_single (l : List Char) (hne : l ≠ []) :
    rustLinesAux [l] = [String.mk l] := by
  cases l with
  | nil => exact absurd rfl hne
  | cons c cs => rfl

theorem rustLines_single (s : String) (hne : s.toList ≠ []) (h : '\n' ∉ s.toList) :
    rustLines s = [s] := by
  unfold rustLines
  rw [splitNl_no_nl _ h, rustLinesAux_single _ hne]
  rfl

theorem dropDataTag_prepend (js : String) : dropDataTag ("data: " ++ js) = some js := rfl

theorem chunk5_flatten (l : List Char) : (chunk5 l).flatten = l := by
  induction l using chunk5.induct <;> simp [chunk5, *]

theorem chunk5_mem_length (l : List Char) : ∀ c ∈ chunk5 l, c.length ≤ 5 := by
  induction l using chunk5.induct with
  | case1 => intro c hc; simp [chunk5] at hc
  | case2 a =>
    intro c hc
    simp only [chunk5, List.mem_singleton] at hc
    subst hc; simp
  | case3 a b =>
    intro c hc
    simp only [chunk5, List.mem_singleton] at hc
    subst hc; simp
  | case4 a b c0 =>
    intro c hc
    simp only [chunk5, List.mem_singleton] at hc
    subst hc; simp
  | case5 a b c0 d =>
    intro c hc
    simp only [chunk5, List.mem_singleton] at hc
    subst hc; simp
  | case6 a b c0 d e rest ih =>
    intro c hc
    simp only [chunk5, List.mem_cons] at hc
    rcases hc with h | h
    · subst h; simp
    · exact ih c h

theorem foldl_append_mk (ls : List (List Char)) (acc : String) :
    List.foldl (· ++ ·) acc (ls.map String.mk) = String.mk (acc.toList ++ ls.flatten) := by
  induction ls generalizing acc with
  | nil => simp
  | cons l ls ih =>
    simp only [List.map_cons, List.foldl_cons, List.flatten_cons, ih]
    congr 1
    show (acc.toList ++ l) ++ ls.flatten = acc.toList ++ (l ++ ls.flatten)
    exact List.append_assoc _ _ _

theorem join_map_mk (ls : List (List Char)) :
    String.join (ls.map String.mk) = String.mk ls.flatten := by
  have h := foldl_append_mk ls ""
  simpa [String.join] using h

theorem collectStream_all_ok (strs : List String) (acc : String) :
    List.foldlM (fun a (chunk : Except String String) => chunk.map (a ++ ·)) acc
      (strs.map Except.ok) = Except.ok (List.foldl (· ++ ·) acc strs) := by
  induction strs generalizing acc with
  | nil => rfl
  | cons s ss ih =>
    simp only [List.map_cons, List.foldlM_cons, Except.map, List.foldl_cons]
    exact ih (acc ++ s)

theorem collectStream_first_error (strs : List String) (e : String)
    (rest : List (Except String String)) (acc : String) :
    List.foldlM (fun a (chunk : Except String String) => chunk.map (a ++ ·)) acc
      (strs.map Except.ok ++ Except.error e :: rest) = Except.error e := by
  induction strs generalizing acc with
  | nil => rfl
  | cons s ss ih =>
    simp only [List.map_cons, List.cons_append, List.foldlM_cons, Except.map]
    exact ih (acc ++ s)

/-! Claim theorems. -/

/-- Claim C1, evaluation of the code at the failing input: the spec mandates
chunk-boundary invariance with a session buffer holding the incomplete
trailing line, but both stream_impl decoders process each chunk in
isolation. The very same byte text, one complete protocol frame carrying the
fragment hi, yields the fragment when delivered whole and yields either two
empty fragments (Anthropic) or two decode errors (Ollama) when split
mid-line, so splitting changes the emitted fragment sequence and its
concatenation. -/
theorem c1_chunk_boundary_code_eval :
    (anthropicSseCutA ++ anthropicSseCutB = anthropicSseFrame ∧
      decodeChunks anthropicDecodeChunk [anthropicSseFrame] = [Except.ok "hi"] ∧
      decodeChunks anthropicDecodeChunk [anthropicSseCutA, anthropicSseCutB] =
        [Except.ok "", Except.ok ""]) ∧
    (ollamaNdjsonCutA ++ ollamaNdjsonCutB = ollamaNdjsonFrame ∧
      decodeChunks ollamaDecodeChunk [ollamaNdjsonFrame] = [Except.ok "hi"] ∧
      decodeChunks ollamaDecodeChunk [ollamaNdjsonCutA, ollamaNdjsonCutB] =
        [Except.error "Failed to parse NDJSON", Except.error "Failed to parse NDJSON"]) :=
  ⟨⟨rfl, rfl, rfl⟩, ⟨rfl, rfl, rfl⟩⟩

/-- Claim C2, counterexample to the claim as stated: a complete data line
that should carry a content delta but whose payload is malformed is silently
skipped by the Anthropic decoder (the result is Ok with no fragment, not a
decode error), and a malformed payload of a non-content event aborts the
OpenAI decoder instead of being skipped. -/
theorem c2_claim_counterexample :
    anthropicDecodeChunk anthropicBadContentLine = Except.ok "" ∧
    (openaiDecodeChunk openaiBadEventLine).isOk = false :=
  ⟨rfl, rfl⟩

/-- Claim C2 as amended: the Anthropic decoder never surfaces a decode error
at all — every malformed data payload, content delta or not, is skipped and
the stream continues — while the OpenAI decoder surfaces a decode error that
aborts the stream for every malformed data payload other than the literal
DONE sentinel, content-bearing or not. -/
theorem c2_amended_policy :
    (∀ chunk, (anthropicDecodeChunk chunk).isOk = true) ∧
    (∀ js : String, '\n' ∉ js.toList → parseAnthropicEvent js = none →
      anthropicDecodeChunk ("data: " ++ js) = Except.ok "") ∧
    (∀ js : String, '\n' ∉ js.toList → rustTrim js ≠ "[DONE]" → parseOpenAIChunk js = none →
      openaiDecodeChunk ("data: " ++ js) = Except.error "Failed to parse SSE") := by
  refine ⟨fun chunk => rfl, ?_, ?_⟩
  · intro js hnl hp
    have hne : ("data: " ++ js).toList ≠ [] := by
      rw [toList_append]
      simp
    have hnl2 : '\n' ∉ ("data: " ++ js).toList := by
      rw [toList_append]
      intro hm
      rcases List.mem_append.mp hm with h1 | h2
      · revert h1
        decide
      · exact hnl h2
    unfold anthropicDecodeChunk
    rw [rustLines_single _ hne hnl2]
    simp [anthropicLineTokens, dropDataTag_prepend, hp, String.join]
  · intro js hnl hdone hp
    have hne : ("data: " ++ js).toList ≠ [] := by
      rw [toList_append]
      simp
    have hnl2 : '\n' ∉ ("data: " ++ js).toList := by
      rw [toList_append]
      intro hm
      rcases List.mem_append.mp hm with h1 | h2
      · revert h1
        decide
      · exact hnl h2
    unfold openaiDecodeChunk
    rw [rustLines_single _ hne hnl2]
    simp [List.foldlM, openaiLineTokens, dropDataTag_prepend, hdone, hp, Except.map]

/-- Claim C2 amended, witness: a concrete malformed payload exercises both
adapters through the amended theorem. -/
theorem c2_amended_policy_witness :
    anthropicDecodeChunk ("data: " ++ "\x7bbad") = Except.ok "" ∧
    openaiDecodeChunk ("data: " ++ "\x7bbad") = Except.error "Failed to parse SSE" :=
  ⟨c2_amended_policy.2.1 "\x7bbad" (by decide) rfl,
   c2_amended_policy.2.2 "\x7bbad" (by decide) (by decide) rfl⟩

/-- Claim C3: when the provider yields a fragment sequence whose pulls all
succeed, Brain::process_query returns the in-order concatenation trimmed of
surrounding whitespace; a failing pull propagates that first error; a failure
to obtain the stream at all propagates likewise. -/
theorem c3_process_query_spec :
    (∀ (f : CompletionRequest → Except String (List (Except String String)))
        (h : Except Unit (List String)) (fs : Except Unit (List (String × String)))
        (q : String) (ic : Bool) (strs : List String),
        f (builtRequest h fs q ic) = Except.ok (strs.map Except.ok) →
        processQuery f h fs q ic = Except.ok (rustTrim (String.join strs))) ∧
    (∀ (f : CompletionRequest → Except String (List (Except String String)))
        (h : Except Unit (List String)) (fs : Except Unit (List (String × String)))
        (q : String) (ic : Bool) (strs : List String) (e : String)
        (rest : List (Except String String)),
        f (builtRequest h fs q ic) = Except.ok (strs.map Except.ok ++ Except.error e :: rest) →
        processQuery f h fs q ic = Except.error e) ∧
    (∀ (f : CompletionRequest → Except String (List (Except String String)))
        (h : Except Unit (List String)) (fs : Except Unit (List (String × String)))
        (q : String) (ic : Bool) (e : String), f (builtRequest h fs q ic) = Except.error e →
        processQuery f h fs q ic = Except.error e) := by
  refine ⟨?_, ?_, ?_⟩
  · intro f h fs q ic strs hf
    unfold processQuery
    rw [hf]
    simp only [collectStream, collectStream_all_ok]
    rfl
  · intro f h fs q ic strs e rest hf
    unfold processQuery
    rw [hf]
    simp only [collectStream, collectStream_first_error]
  · intro f h fs q ic e hf
    unfold processQuery
    rw [hf]

/-- Claim C3, witness: concrete providers exercising the success, mid-stream
failure and connection failure paths. -/
theorem c3_process_query_spec_witness :
    processQuery (fun _ => Except.ok [Except.ok " ls ", Except.ok "-la "])
        (Except.error ()) (Except.error ()) "list files" false = Except.ok "ls -la" ∧
    processQuery (fun _ => Except.ok [Except.ok "a", Except.error "boom"])
        (Except.error ()) (Except.error ()) "list files" false = Except.error "boom" ∧
    processQuery (fun _ => Except.error "down") (Except.error ()) (Except.error ()) "q" false =
      Except.error "down" :=
  ⟨c3_process_query_spec.1 _ _ _ _ _ [" ls ", "-la "] rfl,
   c3_process_query_spec.2.1 _ _ _ _ _ ["a"] "boom" [] rfl,
   c3_process_query_spec.2.2 _ _ _ _ _ "down" rfl⟩

/-- Claim C4: mock lookup is determined by the lowercased query, the two
pinned queries resolve as stated, and any query hitting neither an exact nor
a substring entry resolves to the configured default; get_response is total
and never fails by construction. -/
theorem c4_mock_lookup :
    (∀ q1 q2, toLowerStr q1 = toLowerStr q2 → mockGetResponse q1 = mockGetResponse q2) ∧
    mockGetResponse "list files" = "ls -la" ∧
    containsSub (mockGetResponse "undo last git commit") "git" = true ∧
    containsSub (mockGetResponse "undo last git commit") "reset" = true ∧
    (∀ q, mockResponses.find? (fun kv => kv.fst == toLowerStr q) = none →
      mockResponses.find? (fun kv =>
        containsSub (toLowerStr q) kv.fst || containsSub kv.fst (toLowerStr q)) = none →
      mockGetResponse q = mockDefault) := by
  refine ⟨?_, by decide, by decide, by decide, ?_⟩
  · intro q1 q2 h
    simp only [mockGetResponse, get_response, h]
  · intro q h1 h2
    simp only [mockGetResponse, get_response, h1, h2]

/-- Claim C4, witness: case-insensitivity on a concrete pair and the default
fallback on a concrete unmatched query. -/
theorem c4_mock_lookup_witness :
    mockGetResponse "LIST Files" = mockGetResponse "list files" ∧
    mockGetResponse "qqqq" = mockDefault :=
  ⟨c4_mock_lookup.1 "LIST Files" "list files" (by decide),
   c4_mock_lookup.2.2.2.2 "qqqq" (by decide) (by decide)⟩

/-- Claim C5: the destructive classifier flags the two pinned dangerous
commands, passes the two pinned safe ones, and depends only on the
lowercased command, making the substring match case-insensitive. -/
theorem c5_destructive_classification :
    is_destructive "rm -rf /" = true ∧
    is_destructive "DROP TABLE users" = true ∧
    is_destructive "ls -la" = false ∧
    is_destructive "git status" = false ∧
    (∀ c1 c2, toLowerStr c1 = toLowerStr c2 → is_destructive c1 = is_destructive c2) := by
  refine ⟨by decide, by decide, by decide, by decide, ?_⟩
  intro c1 c2 h
  simp only [is_destructive, h]

/-- Claim C5, witness: case-insensitivity instantiated on a concrete pair. -/
theorem c5_destructive_classification_witness :
    is_destructive "RM -RF /tmp" = is_destructive "rm -rf /tmp" :=
  c5_destructive_classification.2.2.2.2 "RM -RF /tmp" "rm -rf /tmp" (by decide)

/-- Claim C6: in Review mode, the Tab handler is an involution on the
explanation-visibility flag; in Diff mode with scroll offset zero, the Up
handler leaves the offset at zero (saturating subtraction). -/
theorem c6_key_handling_algebra :
    (∀ (s : AppState) (m : KeyModifiers), s.mode = AppMode.Review →
      ((handle_key_event (handle_key_event s KeyCode.Tab m).1 KeyCode.Tab m).1).show_explanation =
        s.show_explanation) ∧
    (∀ (s : AppState) (m : KeyModifiers), s.mode = AppMode.Diff → s.scroll_position = 0 →
      (handle_key_event s KeyCode.Up m).1.scroll_position = 0) := by
  constructor
  · intro s m h
    simp [handle_key_event, handle_key_review, h]
  · intro s m h hz
    simp [handle_key_event, handle_key_diff, h, hz]

/-- Claim C6, witness: the two algebraic facts at concrete states. -/
theorem c6_key_handling_algebra_witness :
    ((handle_key_event (handle_key_event sampleReviewState KeyCode.Tab ⟨false⟩).1
        KeyCode.Tab ⟨false⟩).1).show_explanation = sampleReviewState.show_explanation ∧
    (handle_key_event sampleDiffState KeyCode.Up ⟨false⟩).1.scroll_position = 0 :=
  ⟨c6_key_handling_algebra.1 sampleReviewState ⟨false⟩ rfl,
   c6_key_handling_algebra.2 sampleDiffState ⟨false⟩ rfl rfl⟩

/-- Claim C7: in Input mode, Enter moves to Thinking and raises the
begin-streaming flag exactly when the buffer is non-empty, leaving the state
unchanged on an empty buffer; Escape and Ctrl+C exit the loop with the state
unchanged, so no action flag is set. -/
theorem c7_input_mode_transitions :
    ∀ (s : AppState) (m : KeyModifiers), s.mode = AppMode.Input →
      ((s.input_buffer.isEmpty = false →
          handle_key_event s KeyCode.Enter m =
            ({ s with mode := AppMode.Thinking, should_process_query := true }, false)) ∧
        (s.input_buffer.isEmpty = true → handle_key_event s KeyCode.Enter m = (s, false)) ∧
        handle_key_event s KeyCode.Esc m = (s, true) ∧
        (m.control = true → handle_key_event s (KeyCode.CharKey 'c') m = (s, true))) := by
  intro s m h
  refine ⟨?_, ?_, ?_, ?_⟩
  · intro hne
    simp [handle_key_event, handle_key_input, h, hne]
  · intro he
    simp [handle_key_event, handle_key_input, h, he]
  · simp [handle_key_event, handle_key_input, h]
  · intro hc
    simp [handle_key_event, handle_key_input, h, hc]

/-- Claim C7, witness: the four transitions at concrete Input states. -/
theorem c7_input_mode_transitions_witness :
    handle_key_event sampleInputState KeyCode.Enter ⟨false⟩ =
      ({ sampleInputState with mode := AppMode.Thinking, should_process_query := true }, false) ∧
    handle_key_event sampleEmptyInputState KeyCode.Enter ⟨false⟩ = (sampleEmptyInputState, false) ∧
    handle_key_event sampleInputState KeyCode.Esc ⟨false⟩ = (sampleInputState, true) ∧
    handle_key_event sampleInputState (KeyCode.CharKey 'c') ⟨true⟩ = (sampleInputState, true) :=
  ⟨(c7_input_mode_transitions sampleInputState ⟨false⟩ rfl).1 rfl,
   (c7_input_mode_transitions sampleEmptyInputState ⟨false⟩ rfl).2.1 rfl,
   (c7_input_mode_transitions sampleInputState ⟨false⟩ rfl).2.2.1,
   (c7_input_mode_transitions sampleInputState ⟨true⟩ rfl).2.2.2 rfl⟩

/-- Claim C8: on any non-success status each cloud adapter returns the error
composed from the fully read body instead of a stream, and that message
contains the status code, the raw body, and the name of the credential
environment variable of that adapter. -/
theorem c8_non_success_status :
    ∀ (status : Nat) (body : String) (chunks : List String),
      status_is_success status = false →
      (anthropicStreamResponse status body chunks =
          Except.error (anthropicErrorMsg status body) ∧
        containsSub (anthropicErrorMsg status body) (toString status) = true ∧
        containsSub (anthropicErrorMsg status body) body = true ∧
        containsSub (anthropicErrorMsg status body) "AETHER_ANTHROPIC_API_KEY" = true) ∧
      (openaiStreamResponse status body chunks = Except.error (openaiErrorMsg status body) ∧
        containsSub (openaiErrorMsg status body) (toString status) = true ∧
        containsSub (openaiErrorMsg status body) body = true ∧
        containsSub (openaiErrorMsg status body) "AETHER_OPENAI_API_KEY" = true) ∧
      (geminiStreamResponse status body chunks = Except.error (geminiErrorMsg status body) ∧
        containsSub (geminiErrorMsg status body) (toString status) = true ∧
        containsSub (geminiErrorMsg status body) body = true ∧
        containsSub (geminiErrorMsg status body) "AETHER_GEMINI_API_KEY" = true) := by
  intro status body chunks h
  refine ⟨⟨?_, ?_, ?_, ?_⟩, ⟨?_, ?_, ?_, ?_⟩, ⟨?_, ?_, ?_, ?_⟩⟩
  · simp [anthropicStreamResponse, h]
  · unfold anthropicErrorMsg containsSub
    simp only [toList_append, List.append_assoc]
    exact hasSubList_parts _ _ _
  · unfold anthropicErrorMsg containsSub
    simp only [toList_append, List.append_assoc]
    exact hasSubList_mono_left _ _ _ (hasSubList_mono_left _ _ _
      (hasSubList_mono_left _ _ _ (hasSubList_self_append _ _)))
  · unfold anthropicErrorMsg containsSub
    simp only [toList_append, List.append_assoc]
    exact hasSubList_mono_left _ _ _ (hasSubList_mono_left _ _ _
      (hasSubList_mono_left _ _ _ (hasSubList_mono_left _ _ _ (by decide))))
  · simp [openaiStreamResponse, h]
  · unfold openaiErrorMsg containsSub
    simp only [toList_append, List.append_assoc]
    exact hasSubList_parts _ _ _
  · unfold openaiErrorMsg containsSub
    simp only [toList_append, List.append_assoc]
    exact hasSubList_mono_left _ _ _ (hasSubList_mono_left _ _ _
      (hasSubList_mono_left _ _ _ (hasSubList_self_append _ _)))
  · unfold openaiErrorMsg containsSub
    simp only [toList_append, List.append_assoc]
    exact hasSubList_mono_left _ _ _ (hasSubList_mono_left _ _ _
      (hasSubList_mono_left _ _ _ (hasSubList_mono_left _ _ _ (by decide))))
  · simp [geminiStreamResponse, h]
  · unfold geminiErrorMsg containsSub
    simp only [toList_append, List.append_assoc]
    exact hasSubList_parts _ _ _
  · unfold geminiErrorMsg containsSub
    simp only [toList_append, List.append_assoc]
    exact hasSubList_mono_left _ _ _ (hasSubList_mono_left _ _ _
      (hasSubList_mono_left _ _ _ (hasSubList_self_append _ _)))
  · unfold geminiErrorMsg containsSub
    simp only [toList_append, List.append_assoc]
    exact hasSubList_mono_left _ _ _ (hasSubList_mono_left _ _ _
      (hasSubList_mono_left _ _ _ (hasSubList_mono_left _ _ _ (by decide))))

/-- Claim C8, witness: status 403 with a concrete body on all three
adapters. -/
theorem c8_non_success_status_witness :
    anthropicStreamResponse 403 "denied" [] = Except.error (anthropicErrorMsg 403 "denied") ∧
    openaiStreamResponse 403 "denied" [] = Except.error (openaiErrorMsg 403 "denied") ∧
    geminiStreamResponse 403 "denied" [] = Except.error (geminiErrorMsg 403 "denied") :=
  ⟨(c8_non_success_status 403 "denied" [] (by decide)).1.1,
   (c8_non_success_status 403 "denied" [] (by decide)).2.1.1,
   (c8_non_success_status 403 "denied" [] (by decide)).2.2.1⟩

/-- Claim C9: for every request the mock stream consists solely of Ok
fragments of at most five characters each, and their in-order concatenation
is exactly the deterministic response for that query. -/
theorem c9_mock_stream_round_trip :
    ∀ req : CompletionRequest,
      (mockStreamCompletion req).all Except.isOk = true ∧
      (mockStreamCompletion req).all (fun fr => decide ((fragString fr).length ≤ 5)) = true ∧
      String.join ((mockStreamCompletion req).map fragString) = mockGetResponse req.user_query := by
  intro req
  refine ⟨?_, ?_, ?_⟩
  · unfold mockStreamCompletion
    simp [List.all_map, Function.comp, Except.isOk, Except.toBool]
  · unfold mockStreamCompletion
    simp only [List.all_eq_true]
    intro fr hfr
    obtain ⟨l, hl, rfl⟩ := List.mem_map.mp hfr
    have hlen := chunk5_mem_length _ l hl
    simpa [fragString] using hlen
  · unfold mockStreamCompletion
    rw [List.map_map]
    have hcomp : fragString ∘ (fun l => Except.ok (String.mk l)) = String.mk := rfl
    rw [hcomp, join_map_mk, chunk5_flatten]
    rfl

/-- Claim C9, witness: the round trip at a concrete request. -/
theorem c9_mock_stream_round_trip_witness :
    (mockStreamCompletion ⟨"sys", "list files", [], []⟩).all Except.isOk = true ∧
    (mockStreamCompletion ⟨"sys", "list files", [], []⟩).all
      (fun fr => decide ((fragString fr).length ≤ 5)) = true ∧
    String.join ((mockStreamCompletion ⟨"sys", "list files", [], []⟩).map fragString) =
      mockGetResponse "list files" :=
  c9_mock_stream_round_trip ⟨"sys", "list files", [], []⟩

/-- Claim C10: reset_for_new_query restores Input mode, clears the command,
explanation and diff fields, zeroes the scroll offset, clears the
explanation-visibility flag and all three action flags, and leaves the input
buffer, chat history, animation counter, initial buffer and cursor position
untouched. -/
theorem c10_reset_frame :
    ∀ s : AppState,
      (reset_for_new_query s).mode = AppMode.Input ∧
      (reset_for_new_query s).suggested_command = none ∧
      (reset_for_new_query s).command_explanation = none ∧
      (reset_for_new_query s).diff_content = none ∧
      (reset_for_new_query s).scroll_position = 0 ∧
      (reset_for_new_query s).show_explanation = false ∧
      (reset_for_new_query s).should_process_query = false ∧
      (reset_for_new_query s).should_execute = false ∧
      (reset_for_new_query s).should_apply_patch = false ∧
      (reset_for_new_query s).input_buffer = s.input_buffer ∧
      (reset_for_new_query s).chat_history = s.chat_history ∧
      (reset_for_new_query s).animation_frame = s.animation_frame ∧
      (reset_for_new_query s).initial_buffer = s.initial_buffer ∧
      (reset_for_new_query s).cursor_pos = s.cursor_pos :=
  fun _ => ⟨rfl, rfl, rfl, rfl, rfl, rfl, rfl, rfl, rfl, rfl, rfl, rfl, rfl, rfl⟩

/-- Claim C10, witness: the reset applied to a concrete Diff-mode state. -/
theorem c10_reset_frame_witness :
    (reset_for_new_query sampleDiffState).mode = AppMode.Input :=
  (c10_reset_frame sampleDiffState).1

end AiCli
